import Mathlib

set_option linter.unusedVariables false

/-!
Shallow embedding of the cmdo CLI assistant's structured-response pipeline
(`src/formatter/formatter.ts`) and AI provider gateway (`src/lib/LLMCall.ts`).

Strings are modelled as `List Char`.  JavaScript's `String.prototype.split`,
`trim`, `padEnd` and `Array.prototype.join` are embedded as executable
functions below with the same observable semantics (leftmost non-overlapping
substring split, whitespace trim on both ends, space padding to a target
width, separator-joined concatenation).
-/

/-- Strings of the embedded program: JavaScript strings as lists of characters. -/
abbrev Str := List Char

/-- Convert a Lean string literal into the embedded string type. -/
def toChars (s : String) : Str := s.data

/-- JavaScript `trim` whitespace class (the characters that occur in this
codebase's data; exotic Unicode space code points are not used by the program). -/
def wsChar (c : Char) : Bool := c == ' ' || c == '\t' || c == '\n' || c == '\r'

/-- Drop leading whitespace. -/
def trimLeft (l : Str) : Str := l.dropWhile wsChar

/-- Drop trailing whitespace. -/
def trimRight (l : Str) : Str := (l.reverse.dropWhile wsChar).reverse

/-- JavaScript `str.trim()`: drop whitespace from both ends. -/
def jsTrim (l : Str) : Str := trimRight (trimLeft l)

/-- Worker for JavaScript `str.split(sep)`.  Scans the input one character at
a time; `skip` counts characters of an already-matched separator still to be
consumed; `acc` holds the current field in reverse. -/
def splitGo (sep : Str) : Str → Nat → Str → List Str
  | [], _, acc => [acc.reverse]
  | _ :: rest, Nat.succ k, acc => splitGo sep rest k acc
  | c :: rest, 0, acc =>
    if sep.isPrefixOf (c :: rest) then
      acc.reverse :: splitGo sep rest (sep.length - 1) []
    else
      splitGo sep rest 0 (c :: acc)

/-- JavaScript `str.split(sep)` for a non-empty separator `sep`: leftmost,
non-overlapping occurrences of `sep` delimit the fields.  (The program only
splits on the non-empty separators `"---"`, `"|||"` and `","`.) -/
def jsSplit (sep l : Str) : List Str := splitGo sep l 0 []

/-- JavaScript `str.padEnd(n)`: pad with spaces on the right up to width `n`;
a string already at least `n` long is returned unchanged. -/
def padEnd (l : Str) (n : Nat) : Str := l ++ List.replicate (n - l.length) ' '

/-- JavaScript `array.join(sep)`. -/
def joinWith (sep : Str) : List Str → Str
  | [] => []
  | [x] => x
  | x :: y :: ys => x ++ sep ++ joinWith sep (y :: ys)

/-- Split a string at the first occurrence of `sep`, returning the parts
before and after it, or `none` when `sep` does not occur. -/
def splitAtFirst (sep : Str) : Str → Option (Str × Str)
  | [] => none
  | c :: rest =>
    if sep.isPrefixOf (c :: rest) then
      some ([], (c :: rest).drop sep.length)
    else
      (splitAtFirst sep rest).map (fun p => (c :: p.1, p.2))

/-!
## Structured response parser and dual-channel renderer (`src/formatter/formatter.ts`)

Every label/content formatter in the source runs the same pipeline:
split the raw reply on `'---'`, split each chunk on `'|||'`, trim every
part, keep the chunks whose first two trimmed parts are both non-empty
(JavaScript array destructuring reads only the first two parts and
truthiness of a string is non-emptiness), then render one line per record,
padding the label to `maxLabelLen + 2` columns in the display channel.
The chalk color wrappers only add ANSI styling around the visible
characters and are dropped from the embedding, which models the visible
text of both channels.
-/

/-- The record separator `'---'`. -/
def dash3 : Str := toChars "---"

/-- The field separator `'|||'`. -/
def vbar3 : Str := toChars "|||"

/-- `entry.split('|||').map(str => str.trim())` for one raw chunk. -/
def chunkParts (chunk : Str) : List Str := (jsSplit vbar3 chunk).map jsTrim

/-- The surviving record of one raw chunk: the first two trimmed parts of
its `'|||'` split, kept only when both are non-empty (the
`filter(([a, b]) => a && b)` step combined with the destructuring reads
downstream, which never look past the second part). -/
def recordOfChunk (chunk : Str) : Option (Str × Str) :=
  match chunkParts chunk with
  | a :: b :: _ => if a ≠ [] ∧ b ≠ [] then some (a, b) else none
  | _ => none

/-- The `entries`/`sections`/`examples` list every label/content formatter
computes from the raw LLM reply. -/
def parseEntries (response : Str) : List (Str × Str) :=
  (jsSplit dash3 response).filterMap recordOfChunk

/-- `Math.max(...entries.map(([label]) => label.length))`.  For the inputs
where the source evaluates `padEnd`, `entries` is non-empty, on which this
fold agrees with JavaScript's `Math.max`; on an empty `entries` the source
renders the empty string without consulting the maximum. -/
def maxLabelLen (entries : List (Str × Str)) : Nat :=
  (entries.map (fun e => e.1.length)).foldr max 0

/-- One line of the display channel: the label padded to
`maxLabelLen + 2` columns followed by the content. -/
def displayLine (entries : List (Str × Str)) (r : Str × Str) : Str :=
  padEnd r.1 (maxLabelLen entries + 2) ++ r.2

/-- The display channel shared by all label/content formatters (they differ
only in chalk colors, which carry no visible characters). -/
def renderedOfEntries (entries : List (Str × Str)) : Str :=
  joinWith (toChars "\n") (entries.map (displayLine entries))

/-- One line of the `'label: content'` plain channel used by
`explainFormatter`, `teachFormatter` and `errorExplainFormatter`. -/
def plainLine (r : Str × Str) : Str := r.1 ++ toChars ": " ++ r.2

/-- The `'label: content'` plain channel. -/
def plainOfEntries (entries : List (Str × Str)) : Str :=
  joinWith (toChars "\n") (entries.map plainLine)

/-- One line of the `'cmd - explanation'` plain channel used by
`examplesFormatter`, `fixFormatter` and `improveFormatter`. -/
def dashLine (r : Str × Str) : Str := r.1 ++ toChars " - " ++ r.2

/-- The two rendering channels every formatter returns. -/
structure FormatterOutput where
  rendered : Str
  raw : Str
deriving DecidableEq

/-- `convertFormatter`: display channel as all label/content formatters;
the raw channel keeps only the commands (`entries.map(([_, cmd]) => cmd)`). -/
def convertFormatter (response : Str) : FormatterOutput :=
  let entries := parseEntries response
  { rendered := renderedOfEntries entries
    raw := joinWith (toChars "\n") (entries.map (fun e => e.2)) }

/-- `examplesFormatter`: raw channel is `` `${cmd} - ${explanation}` `` per line. -/
def examplesFormatter (response : Str) : FormatterOutput :=
  let entries := parseEntries response
  { rendered := renderedOfEntries entries
    raw := joinWith (toChars "\n") (entries.map dashLine) }

/-- `errorExplainFormatter`: raw channel is `` `${label}: ${content}` `` per line. -/
def errorExplainFormatter (response : Str) : FormatterOutput :=
  let entries := parseEntries response
  { rendered := renderedOfEntries entries
    raw := plainOfEntries entries }

/-- `explainFormatter`: raw channel is `` `${key}: ${desc}` `` per line. -/
def explainFormatter (response : Str) : FormatterOutput :=
  let entries := parseEntries response
  { rendered := renderedOfEntries entries
    raw := plainOfEntries entries }

/-- `fixFormatter`: raw channel is `` `${cmd} - ${explanation}` `` per line. -/
def fixFormatter (response : Str) : FormatterOutput :=
  let entries := parseEntries response
  { rendered := renderedOfEntries entries
    raw := joinWith (toChars "\n") (entries.map dashLine) }

/-- `improveFormatter`: raw channel is `` `${cmd} - ${explanation}` `` per line. -/
def improveFormatter (response : Str) : FormatterOutput :=
  let entries := parseEntries response
  { rendered := renderedOfEntries entries
    raw := joinWith (toChars "\n") (entries.map dashLine) }

/-- `teachFormatter`: raw channel is `` `${label}: ${content}` `` per line. -/
def teachFormatter (response : Str) : FormatterOutput :=
  let entries := parseEntries response
  { rendered := renderedOfEntries entries
    raw := plainOfEntries entries }

/-- `generateFormatter`'s command list:
`input.split(",").map(cmd => cmd.trim()).filter(Boolean)`. -/
def generateCommands (input : Str) : List Str :=
  ((jsSplit (toChars ",") input).map jsTrim).filter (fun cmd => !cmd.isEmpty)

/-- `generateFormatter`: a 1-indexed numbered list in the display channel,
the bare commands joined by newlines in the raw channel. -/
def generateFormatter (input : Str) : FormatterOutput :=
  let commands := generateCommands input
  { rendered := joinWith (toChars "\n")
      (commands.mapIdx fun index cmd => toChars (toString (index + 1) ++ ". ") ++ cmd)
    raw := joinWith (toChars "\n") commands }

/-- Modelled from the spec (§8 round trip): the trivial per-line
`"label: content"` splitter used to state the plain-channel round-trip
property; it is the spec's test harness, not code of the repository.
Lines without a `": "` produce no record. -/
def trivialSplitter (s : Str) : List (Str × Str) :=
  (jsSplit (toChars "\n") s).filterMap (splitAtFirst (toChars ": "))

/-!
## AI provider gateway (`src/lib/LLMCall.ts`)

`AskAi` validates the prompts, reads the configuration, and dispatches on
the configured provider name to one adapter per backend; every adapter
validates its credentials, makes at most one network call, and normalizes
every outcome into an `AskAIResponse` value.

The effectful surroundings are explicit parameters of the embedding:

* `Env.cfg` is the outcome of `getConfig()` (which reads and JSON-parses a
  file and can therefore throw — a thrown exception is the `Except.error`
  case, caught by `AskAi`'s outer `try`/`catch`);
* `Env.net` is the outcome of the single HTTP/SDK request an adapter makes:
  either a thrown transport error (`NetErr` carries the resolved HTTP
  status, error code and message the catch blocks inspect) or a 2xx reply
  whose provider-specific JSON nesting (`choices[0].message.content`,
  `content[0].text`, `message.content`, ...) is abstracted into the
  optional text payload it carries;
* each adapter's result is paired with the number of network requests it
  issued (`0` or `1`), making "no network call was attempted" provable.

The wall-clock `timestamp: Date.now()` field of the source response record
is outside the embedding and omitted; no claim mentions it.
-/

/-- The uniform response record of `LLMCall.ts` (sans wall-clock timestamp). -/
structure AskAIResponse where
  response : Str
  error : Option Str
  provider : Option Str
  model : Option Str
deriving DecidableEq

/-- The configuration snapshot `getConfig()` returns (the fields `AskAi`
and `callCustomServer` read; a field absent from the JSON file is `none`). -/
structure Config where
  provider : Option Str
  apiKey : Option Str
  model : Option Str
  jwt : Option Str
deriving DecidableEq

/-- A thrown transport/HTTP error as the adapters' catch blocks observe it:
`status` is `err.response?.status`, `code` is `err.code`, `message` the
resolved error message text (the source's `err.response?.data...` fallback
chains are abstracted into this one optional field, `none` standing for no
usable message anywhere in the chain). -/
structure NetErr where
  status : Option Nat
  code : Option Str
  message : Option Str
deriving DecidableEq

/-- Outcome of the one network request an adapter can make. -/
abbrev NetReply := Except NetErr (Option Str)

/-- The effectful environment of one `AskAi` invocation. -/
structure Env where
  cfg : Except Str Config
  net : NetReply
  ollamaBaseUrl : Str
  serverUrl : Str

/-- `createErrorResponse`: empty text, error message set. -/
def createErrorResponse (provider error : Str) (model : Option Str) : AskAIResponse :=
  { response := [], error := some error, provider := some provider, model := model }

/-- `createSuccessResponse`: the reply text, no error. -/
def createSuccessResponse (provider response : Str) (model : Option Str) : AskAIResponse :=
  { response := response, error := none, provider := some provider, model := model }

/-- `validateApiKey`: a missing, empty or whitespace-only key yields the
missing-credential message (`!apiKey || apiKey.trim() === ''`). -/
def validateApiKey (apiKey : Option Str) (provider : Str) : Option Str :=
  if jsTrim (apiKey.getD []) = [] then
    some (provider ++ toChars " API key is missing. Set it using: senpai config --set apiKey <your-key>")
  else none

/-- `validateModel`: a missing, empty or whitespace-only model name yields
the missing-model message. -/
def validateModel (model : Option Str) (provider : Str) : Option Str :=
  if jsTrim (model.getD []) = [] then
    some (provider ++ toChars " model name is missing. Set it using: senpai config --set model <model-name>")
  else none

/-- Extract the text of a 2xx reply: `content?.trim() || ""`. -/
def extractText (payload : Option Str) : Str := jsTrim (payload.getD [])

/-- `callGroq`. -/
def callGroq (systemPrompt userPrompt : Str) (model apiKey : Option Str)
    (net : NetReply) : AskAIResponse × Nat :=
  let provider := toChars "Groq"
  match validateApiKey apiKey provider with
  | some e => (createErrorResponse provider e none, 0)
  | none =>
  match validateModel model provider with
  | some e => (createErrorResponse provider e none, 0)
  | none =>
  match net with
  | .error err =>
    let errorMessage := err.message.getD (toChars "Unknown Groq API error")
    (createErrorResponse provider (toChars "Groq API error: " ++ errorMessage) none, 1)
  | .ok payload =>
    let result := extractText payload
    if result = [] then
      (createErrorResponse provider (toChars "No response content received from Groq API") none, 1)
    else
      (createSuccessResponse provider result model, 1)

/-- `callOllama` (no API key required; `baseUrl` is the environment's
`OLLAMA_BASE_URL` or its localhost default). -/
def callOllama (systemPrompt userPrompt : Str) (model : Option Str) (baseUrl : Str)
    (net : NetReply) : AskAIResponse × Nat :=
  let provider := toChars "Ollama"
  match validateModel model provider with
  | some e => (createErrorResponse provider e none, 0)
  | none =>
  match net with
  | .error err =>
    if err.code = some (toChars "ECONNREFUSED") then
      (createErrorResponse provider
        (toChars "Cannot connect to Ollama server at " ++ baseUrl ++
          toChars ". Make sure Ollama is running.") none, 1)
    else
      let errorMessage := err.message.getD (toChars "Unknown Ollama error")
      (createErrorResponse provider (toChars "Ollama error: " ++ errorMessage) none, 1)
  | .ok payload =>
    let result := extractText payload
    if result = [] then
      (createErrorResponse provider (toChars "No response content received from Ollama API") none, 1)
    else
      (createSuccessResponse provider result model, 1)

/-- `callCustomServer` (requires the stored JWT, not an API key; `!token`
rejects a missing or empty token without trimming). -/
def callCustomServer (systemPrompt userPrompt : Str) (token : Option Str)
    (net : NetReply) : AskAIResponse × Nat :=
  let provider := toChars "CustomServer"
  if token = none ∨ token = some [] then
    (createErrorResponse provider (toChars "JWT token is missing. Please authenticate first.") none, 0)
  else
  match net with
  | .error err =>
    if err.status = some 401 then
      (createErrorResponse provider (toChars "Authentication failed. Please check your JWT token.") none, 1)
    else if err.status = some 403 then
      (createErrorResponse provider (toChars "Access forbidden. Please check your permissions.") none, 1)
    else
      let errorMessage := err.message.getD (toChars "Unknown server error")
      (createErrorResponse provider (toChars "Server error: " ++ errorMessage) none, 1)
  | .ok payload =>
    let result := extractText payload
    if result = [] then
      (createErrorResponse provider (toChars "No response content received from custom server") none, 1)
    else
      (createSuccessResponse provider result none, 1)

/-- `callOpenAI`. -/
def callOpenAI (systemPrompt userPrompt : Str) (model apiKey : Option Str)
    (net : NetReply) : AskAIResponse × Nat :=
  let provider := toChars "OpenAI"
  match validateApiKey apiKey provider with
  | some e => (createErrorResponse provider e none, 0)
  | none =>
  match validateModel model provider with
  | some e => (createErrorResponse provider e none, 0)
  | none =>
  match net with
  | .error err =>
    if err.status = some 401 then
      (createErrorResponse provider (toChars "Invalid OpenAI API key") none, 1)
    else if err.status = some 429 then
      (createErrorResponse provider (toChars "OpenAI API rate limit exceeded. Please try again later.") none, 1)
    else
      let errorMessage := err.message.getD (toChars "Unknown OpenAI error")
      (createErrorResponse provider (toChars "OpenAI API error: " ++ errorMessage) none, 1)
  | .ok payload =>
    let result := extractText payload
    if result = [] then
      (createErrorResponse provider (toChars "No response content received from OpenAI API") none, 1)
    else
      (createSuccessResponse provider result model, 1)

/-- `callClaude`. -/
def callClaude (systemPrompt userPrompt : Str) (model apiKey : Option Str)
    (net : NetReply) : AskAIResponse × Nat :=
  let provider := toChars "Claude"
  match validateApiKey apiKey provider with
  | some e => (createErrorResponse provider e none, 0)
  | none =>
  match validateModel model provider with
  | some e => (createErrorResponse provider e none, 0)
  | none =>
  match net with
  | .error err =>
    if err.status = some 401 then
      (createErrorResponse provider (toChars "Invalid Claude API key") none, 1)
    else if err.status = some 429 then
      (createErrorResponse provider (toChars "Claude API rate limit exceeded. Please try again later.") none, 1)
    else
      let errorMessage := err.message.getD (toChars "Unknown Claude error")
      (createErrorResponse provider (toChars "Claude API error: " ++ errorMessage) none, 1)
  | .ok payload =>
    let result := extractText payload
    if result = [] then
      (createErrorResponse provider (toChars "No response content received from Claude API") none, 1)
    else
      (createSuccessResponse provider result model, 1)

/-- `callOpenRouter` (API key required; the model name is optional and only
shapes the request payload). -/
def callOpenRouter (systemPrompt userPrompt : Str) (model apiKey : Option Str)
    (net : NetReply) : AskAIResponse × Nat :=
  let provider := toChars "OpenRouter"
  match validateApiKey apiKey provider with
  | some e => (createErrorResponse provider e none, 0)
  | none =>
  match net with
  | .error err =>
    if err.status = some 401 then
      (createErrorResponse provider (toChars "Invalid OpenRouter API key") none, 1)
    else if err.status = some 429 then
      (createErrorResponse provider (toChars "OpenRouter API rate limit exceeded. Please try again later.") none, 1)
    else
      let errorMessage := err.message.getD (toChars "Unknown OpenRouter error")
      (createErrorResponse provider (toChars "OpenRouter API error: " ++ errorMessage) none, 1)
  | .ok payload =>
    let result := extractText payload
    if result = [] then
      (createErrorResponse provider (toChars "No response content received from OpenRouter API") none, 1)
    else
      (createSuccessResponse provider result model, 1)

/-- `callTogether`. -/
def callTogether (systemPrompt userPrompt : Str) (model apiKey : Option Str)
    (net : NetReply) : AskAIResponse × Nat :=
  let provider := toChars "Together"
  match validateApiKey apiKey provider with
  | some e => (createErrorResponse provider e none, 0)
  | none =>
  match validateModel model provider with
  | some e => (createErrorResponse provider e none, 0)
  | none =>
  match net with
  | .error err =>
    if err.status = some 401 then
      (createErrorResponse provider (toChars "Invalid Together API key") none, 1)
    else if err.status = some 429 then
      (createErrorResponse provider (toChars "Together API rate limit exceeded. Please try again later.") none, 1)
    else
      let errorMessage := err.message.getD (toChars "Unknown Together error")
      (createErrorResponse provider (toChars "Together API error: " ++ errorMessage) none, 1)
  | .ok payload =>
    let result := extractText payload
    if result = [] then
      (createErrorResponse provider (toChars "No response content received from Together API") none, 1)
    else
      (createSuccessResponse provider result model, 1)

/-- `callHuggingFace` (API key required; model optional). -/
def callHuggingFace (systemPrompt userPrompt : Str) (model apiKey : Option Str)
    (net : NetReply) : AskAIResponse × Nat :=
  let provider := toChars "HuggingFace"
  match validateApiKey apiKey provider with
  | some e => (createErrorResponse provider e none, 0)
  | none =>
  match net with
  | .error err =>
    if err.status = some 401 then
      (createErrorResponse provider (toChars "Invalid Hugging Face API token") none, 1)
    else if err.status = some 503 then
      (createErrorResponse provider (toChars "Hugging Face model is currently loading. Please try again in a few minutes.") none, 1)
    else
      let errorMessage := err.message.getD (toChars "Unknown Hugging Face error")
      (createErrorResponse provider (toChars "Hugging Face API error: " ++ errorMessage) none, 1)
  | .ok payload =>
    let result := extractText payload
    if result = [] then
      (createErrorResponse provider (toChars "No response content received from Hugging Face API") none, 1)
    else
      (createSuccessResponse provider result model, 1)

/-- `callReplicate` (additionally validates the `owner/model:version`
format before the network call; a reply whose `output` array was joined is
abstracted into the payload text like every other reply shape). -/
def callReplicate (systemPrompt userPrompt : Str) (modelVersion apiKey : Option Str)
    (net : NetReply) : AskAIResponse × Nat :=
  let provider := toChars "Replicate"
  match validateApiKey apiKey provider with
  | some e => (createErrorResponse provider e none, 0)
  | none =>
  match validateModel modelVersion provider with
  | some e => (createErrorResponse provider e none, 0)
  | none =>
  if ':' ∉ modelVersion.getD [] then
    (createErrorResponse provider (toChars "Invalid model version format. Expected format: owner/model:version") none, 0)
  else
  match net with
  | .error err =>
    if err.status = some 401 then
      (createErrorResponse provider (toChars "Invalid Replicate API token") none, 1)
    else if err.status = some 404 then
      (createErrorResponse provider (toChars "Model not found on Replicate. Please check the model version.") none, 1)
    else
      let errorMessage := err.message.getD (toChars "Unknown Replicate error")
      (createErrorResponse provider (toChars "Replicate API error: " ++ errorMessage) none, 1)
  | .ok payload =>
    let result := extractText payload
    if result = [] then
      (createErrorResponse provider (toChars "No response content received from Replicate API") none, 1)
    else
      (createSuccessResponse provider result modelVersion, 1)

/-- `callDeepInfra`. -/
def callDeepInfra (systemPrompt userPrompt : Str) (model apiKey : Option Str)
    (net : NetReply) : AskAIResponse × Nat :=
  let provider := toChars "DeepInfra"
  match validateApiKey apiKey provider with
  | some e => (createErrorResponse provider e none, 0)
  | none =>
  match validateModel model provider with
  | some e => (createErrorResponse provider e none, 0)
  | none =>
  match net with
  | .error err =>
    if err.status = some 401 then
      (createErrorResponse provider (toChars "Invalid DeepInfra API token") none, 1)
    else if err.status = some 429 then
      (createErrorResponse provider (toChars "DeepInfra API rate limit exceeded. Please try again later.") none, 1)
    else
      let errorMessage := err.message.getD (toChars "Unknown DeepInfra error")
      (createErrorResponse provider (toChars "DeepInfra API error: " ++ errorMessage) none, 1)
  | .ok payload =>
    let result := extractText payload
    if result = [] then
      (createErrorResponse provider (toChars "No response content received from DeepInfra API") none, 1)
    else
      (createSuccessResponse provider result model, 1)

/-- `config.provider || "server"`: a missing or empty provider name falls
back to the managed-server backend. -/
def providerOrServer (p : Option Str) : Str :=
  match p with
  | none => toChars "server"
  | some q => if q = [] then toChars "server" else q

/-- The gateway entry point `AskAi`: prompt validation, configuration read,
string-keyed provider dispatch with the custom-server fallback, and the
outer `try`/`catch` that converts a thrown `getConfig` exception into an
error response. -/
def AskAi (systemPrompt userPrompt : Str) (env : Env) : AskAIResponse × Nat :=
  if jsTrim systemPrompt = [] then
    (createErrorResponse (toChars "System") (toChars "System prompt is required and cannot be empty") none, 0)
  else if jsTrim userPrompt = [] then
    (createErrorResponse (toChars "System") (toChars "User prompt is required and cannot be empty") none, 0)
  else
    match env.cfg with
    | .error e =>
      (createErrorResponse (toChars "System") (toChars "Unexpected error: " ++ e) none, 0)
    | .ok config =>
      let provider := providerOrServer config.provider
      let apikey := config.apiKey
      let model := config.model
      if provider = toChars "groq" then callGroq systemPrompt userPrompt model apikey env.net
      else if provider = toChars "ollama" then
        callOllama systemPrompt userPrompt model env.ollamaBaseUrl env.net
      else if provider = toChars "openai" then callOpenAI systemPrompt userPrompt model apikey env.net
      else if provider = toChars "claude" then callClaude systemPrompt userPrompt model apikey env.net
      else if provider = toChars "openrouterai" then
        callOpenRouter systemPrompt userPrompt model apikey env.net
      else if provider = toChars "togetherai" then
        callTogether systemPrompt userPrompt model apikey env.net
      else if provider = toChars "huggingface" then
        callHuggingFace systemPrompt userPrompt model apikey env.net
      else if provider = toChars "replicate" then
        callReplicate systemPrompt userPrompt model apikey env.net
      else if provider = toChars "deepinfra" then
        callDeepInfra systemPrompt userPrompt model apikey env.net
      else if provider = toChars "server" then
        callCustomServer systemPrompt userPrompt config.jwt env.net
      else
        callCustomServer systemPrompt userPrompt config.jwt env.net

/-- A sample well-formed environment: a good configuration for the OpenAI
adapter and a 2xx reply carrying the text `"hello"`. -/
def envOk : Env :=
  { cfg := .ok { provider := some (toChars "openai"), apiKey := some (toChars "sk-x")
                 model := some (toChars "gpt-4"), jwt := none }
    net := .ok (some (toChars "hello"))
    ollamaBaseUrl := toChars "http://localhost:11434"
    serverUrl := toChars "http://localhost:3000" }

/-- A sample environment whose configuration read throws. -/
def envCfgThrow : Env :=
  { cfg := .error (toChars "boom")
    net := .ok (some (toChars "hello"))
    ollamaBaseUrl := toChars "http://localhost:11434"
    serverUrl := toChars "http://localhost:3000" }

/-- A sample environment whose network request throws with HTTP status 401. -/
def envNet401 : Env :=
  { cfg := .ok { provider := some (toChars "openai"), apiKey := some (toChars "sk-x")
                 model := some (toChars "gpt-4"), jwt := none }
    net := .error { status := some 401, code := none, message := some (toChars "unauthorized") }
    ollamaBaseUrl := toChars "http://localhost:11434"
    serverUrl := toChars "http://localhost:3000" }

/-- A sample environment whose provider replies 2xx with whitespace-only text. -/
def envEmptyReply : Env :=
  { cfg := .ok { provider := some (toChars "openai"), apiKey := some (toChars "sk-x")
                 model := some (toChars "gpt-4"), jwt := none }
    net := .ok (some (toChars "   "))
    ollamaBaseUrl := toChars "http://localhost:11434"
    serverUrl := toChars "http://localhost:3000" }

/-- A sample parsed record set with labels of different lengths. -/
def sampleEntries : List (Str × Str) :=
  [(toChars "WHAT", toChars "lists files"), (toChars "IMPROVEMENT", toChars "use -la")]

/-!
## Sanity checks: the embedding evaluated on concrete inputs
-/

example : jsSplit (toChars "---") (toChars "ab---cd---") =
    [toChars "ab", toChars "cd", toChars ""] := by decide

example : jsTrim (toChars "  hi there\n") = toChars "hi there" := by decide

example : splitAtFirst (toChars ": ") (toChars "a: b: c") =
    some (toChars "a", toChars "b: c") := by decide

example : parseEntries (toChars "WHAT ||| shows files\n---\nFLAGS ||| -a, -l") =
    [(toChars "WHAT", toChars "shows files"), (toChars "FLAGS", toChars "-a, -l")] := by
  decide

example : explainFormatter (toChars "ls ||| lists\n---\n-a ||| all files") =
    { rendered := toChars "ls  lists\n-a  all files"
      raw := toChars "ls: lists\n-a: all files" } := by decide

example : generateFormatter (toChars "ls -la, pwd") =
    { rendered := toChars "1. ls -la\n2. pwd", raw := toChars "ls -la\npwd" } := by decide

example : (AskAi (toChars "sys") (toChars "hi") envOk).1 =
    createSuccessResponse (toChars "OpenAI") (toChars "hello") (some (toChars "gpt-4")) := by
  decide

example : AskAi (toChars "sys") (toChars "hi") envNet401 =
    (createErrorResponse (toChars "OpenAI") (toChars "Invalid OpenAI API key") none, 1) := by
  decide

/-!
## Splitting lemmas
-/

/-- A list is a (boolean) prefix of itself followed by anything. -/
theorem isPrefixOf_append_self (l x : Str) : l.isPrefixOf (l ++ x) = true := by
  induction l with
  | nil => simp [List.isPrefixOf]
  | cons c cs ih => simp [List.isPrefixOf, ih]

/-- A non-empty pattern whose head differs is not a prefix. -/
theorem isPrefixOf_cons_ne (s0 c : Char) (srest rest : Str) (h : s0 ≠ c) :
    (s0 :: srest).isPrefixOf (c :: rest) = false := by
  simp [List.isPrefixOf, h]

/-- Dropping a list's length from it appended to anything leaves the rest. -/
theorem drop_len_append (t rest : Str) : (t ++ rest).drop t.length = rest := by
  induction t with
  | nil => rfl
  | cons c t' ih => exact ih

/-- The skip phase of `splitGo` consumes exactly the matched separator. -/
theorem splitGo_skip (sep t b acc : Str) :
    splitGo sep (t ++ b) t.length acc = splitGo sep b 0 acc := by
  induction t with
  | nil => rfl
  | cons c t' ih => exact ih

/-- Splitting a string that does not contain the separator's head character
yields the single field `acc.reverse ++ l`. -/
theorem splitGo_no_sep (s0 : Char) (srest l acc : Str) (h : s0 ∉ l) :
    splitGo (s0 :: srest) l 0 acc = [acc.reverse ++ l] := by
  induction l generalizing acc with
  | nil => simp [splitGo]
  | cons c rest ih =>
    have hne : s0 ≠ c := fun e => h (e ▸ List.mem_cons_self c rest)
    have hrest : s0 ∉ rest := fun hm => h (List.mem_cons_of_mem c hm)
    simp [splitGo, isPrefixOf_cons_ne s0 c srest rest hne, ih (c :: acc) hrest]

/-- A separator sitting at the front of the input closes the current field. -/
theorem splitGo_sep_head (s0 : Char) (srest b acc : Str) :
    splitGo (s0 :: srest) ((s0 :: srest) ++ b) 0 acc =
      acc.reverse :: splitGo (s0 :: srest) b 0 [] := by
  have h1 := isPrefixOf_append_self (s0 :: srest) b
  have h2 := splitGo_skip (s0 :: srest) srest b []
  simp only [List.cons_append] at h1 ⊢
  simp [splitGo, h1, h2]

/-- The first separator occurrence after a separator-head-free piece `a`
closes the field `a`. -/
theorem splitGo_append_sep (s0 : Char) (srest a b acc : Str) (h : s0 ∉ a) :
    splitGo (s0 :: srest) (a ++ (s0 :: srest) ++ b) 0 acc =
      (acc.reverse ++ a) :: splitGo (s0 :: srest) b 0 [] := by
  induction a generalizing acc with
  | nil => simpa using splitGo_sep_head s0 srest b acc
  | cons c a' ih =>
    have hne : s0 ≠ c := fun e => h (e ▸ List.mem_cons_self c a')
    have ha' : s0 ∉ a' := fun hm => h (List.mem_cons_of_mem c hm)
    have step := isPrefixOf_cons_ne s0 c srest (a' ++ (s0 :: srest) ++ b) hne
    have e1 : splitGo (s0 :: srest) ((c :: a') ++ (s0 :: srest) ++ b) 0 acc =
        splitGo (s0 :: srest) (a' ++ (s0 :: srest) ++ b) 0 (c :: acc) := by
      simp only [List.cons_append, List.append_assoc] at step ⊢
      simp [splitGo, step]
    rw [e1, ih (c :: acc) ha']
    simp

/-- `jsSplit` on a string without the separator's head character. -/
theorem jsSplit_no_sep (s0 : Char) (srest l : Str) (h : s0 ∉ l) :
    jsSplit (s0 :: srest) l = [l] := by
  simpa [jsSplit] using splitGo_no_sep s0 srest l [] h

/-- `jsSplit` cuts at a separator occurrence after a separator-head-free
piece, wherever in the string that occurrence sits. -/
theorem jsSplit_append_sep (s0 : Char) (srest a b : Str) (h : s0 ∉ a) :
    jsSplit (s0 :: srest) (a ++ (s0 :: srest) ++ b) = a :: jsSplit (s0 :: srest) b := by
  simpa [jsSplit] using splitGo_append_sep s0 srest a b [] h

/-- `splitAtFirst` finds the separator right after a head-character-free piece. -/
theorem splitAtFirst_append (c : Char) (t label rest : Str) (h : c ∉ label) :
    splitAtFirst (c :: t) (label ++ (c :: t) ++ rest) = some (label, rest) := by
  induction label with
  | nil =>
    have h1 := isPrefixOf_append_self (c :: t) rest
    have h2 := drop_len_append (c :: t) rest
    simp only [List.nil_append, List.cons_append] at h1 h2 ⊢
    simp [splitAtFirst, h1, h2]
  | cons d label' ih =>
    have hne : c ≠ d := fun e => h (e ▸ List.mem_cons_self d label')
    have hl' : c ∉ label' := fun hm => h (List.mem_cons_of_mem d hm)
    have step := isPrefixOf_cons_ne c d t (label' ++ (c :: t) ++ rest) hne
    have e1 : splitAtFirst (c :: t) ((d :: label') ++ (c :: t) ++ rest) =
        (splitAtFirst (c :: t) (label' ++ (c :: t) ++ rest)).map
          (fun p => (d :: p.1, p.2)) := by
      simp only [List.cons_append, List.append_assoc] at step ⊢
      simp [splitAtFirst, step]
    rw [e1, ih hl']
    rfl

/-!
## Trimming lemmas
-/

/-- `dropWhile` is idempotent. -/
theorem dropWhile_dropWhile (p : Char → Bool) (l : Str) :
    (l.dropWhile p).dropWhile p = l.dropWhile p := by
  induction l with
  | nil => rfl
  | cons c rest ih =>
    by_cases hc : p c
    · simp [List.dropWhile_cons, hc, ih]
    · simp [List.dropWhile_cons, hc]

/-- `trimLeft` is idempotent. -/
theorem trimLeft_idem (l : Str) : trimLeft (trimLeft l) = trimLeft l := by
  simp [trimLeft, dropWhile_dropWhile]

/-- `trimRight` is idempotent. -/
theorem trimRight_idem (l : Str) : trimRight (trimRight l) = trimRight l := by
  simp [trimRight, dropWhile_dropWhile]

/-- Dropping from the end of a list ending in a kept character keeps that
final character. -/
theorem dropWhile_append_singleton (p : Char → Bool) (c : Char) (hc : p c = false) :
    ∀ xs : Str, ∃ ys : Str, (xs ++ [c]).dropWhile p = ys ++ [c] := by
  intro xs
  induction xs with
  | nil => exact ⟨[], by simp [List.dropWhile_cons, hc]⟩
  | cons x xs' ih =>
    by_cases hx : p x
    · obtain ⟨ys, hy⟩ := ih
      exact ⟨ys, by simp [List.dropWhile_cons, hx, hy]⟩
    · exact ⟨x :: xs', by simp [List.dropWhile_cons, hx]⟩

/-- A list with no leading whitespace keeps that property under `trimRight`. -/
theorem trimLeft_trimRight (l : Str) (h : trimLeft l = l) :
    trimLeft (trimRight l) = trimRight l := by
  cases l with
  | nil => rfl
  | cons c rest =>
    have hc : wsChar c = false := by
      cases hw : wsChar c
      · rfl
      · exfalso
        have h1 : trimLeft (c :: rest) = rest.dropWhile wsChar := by
          simp [trimLeft, List.dropWhile_cons, hw]
        have hlen : (rest.dropWhile wsChar).length ≤ rest.length :=
          (List.dropWhile_suffix wsChar).sublist.length_le
        rw [h] at h1
        rw [← h1] at hlen
        simp at hlen
    obtain ⟨ys, hy⟩ := dropWhile_append_singleton wsChar c hc rest.reverse
    have : trimRight (c :: rest) = c :: ys.reverse := by
      simp [trimRight, List.reverse_cons, hy]
    rw [this]
    simp [trimLeft, List.dropWhile_cons, hc]

/-- `jsTrim` is idempotent: the parser's fields are already trimmed. -/
theorem jsTrim_idem (l : Str) : jsTrim (jsTrim l) = jsTrim l := by
  unfold jsTrim
  rw [trimLeft_trimRight (trimLeft l) (trimLeft_idem l), trimRight_idem]

/-!
## List helper lemmas
-/

/-- Every member of a list of naturals is bounded by the `foldr max 0`. -/
theorem le_foldr_max (n : Nat) (l : List Nat) (h : n ∈ l) : n ≤ l.foldr max 0 := by
  induction l with
  | nil => cases h
  | cons m rest ih =>
    rcases List.mem_cons.mp h with rfl | hm
    · exact Nat.le_max_left _ _
    · exact Nat.le_trans (ih hm) (Nat.le_max_right _ _)

/-- `filterMap` over a list on which `f` agrees with `some ∘ g` is `map g`. -/
theorem filterMap_eq_map_of_eq_some {α β : Type} (f : α → Option β) (g : α → β) :
    ∀ l : List α, (∀ x ∈ l, f x = some (g x)) → l.filterMap f = l.map g := by
  intro l h
  induction l with
  | nil => rfl
  | cons x rest ih =>
    have hx := h x (List.mem_cons_self x rest)
    have hrest : ∀ y ∈ rest, f y = some (g y) := fun y hy => h y (List.mem_cons_of_mem x hy)
    simp [List.filterMap_cons, hx, ih hrest]

/-!
## Response invariant: every adapter returns exactly one populated variant

For each adapter: if the result has no error then the reply text is the
non-empty trimmed payload of a 2xx reply, and if the result has an error
then its text is empty.
-/

/-- `callGroq` response invariant. -/
theorem callGroq_inv (sys user : Str) (model apiKey : Option Str) (net : NetReply) :
    ((callGroq sys user model apiKey net).1.error = none →
      ∃ t, net = Except.ok (some t) ∧
        (callGroq sys user model apiKey net).1.response = jsTrim t ∧ jsTrim t ≠ []) ∧
    ((callGroq sys user model apiKey net).1.error ≠ none →
      (callGroq sys user model apiKey net).1.response = []) := by
  unfold callGroq
  cases hk : validateApiKey apiKey (toChars "Groq") with
  | some e => simp [hk, createErrorResponse]
  | none =>
    cases hm : validateModel model (toChars "Groq") with
    | some e => simp [hk, hm, createErrorResponse]
    | none =>
      cases net with
      | error err => simp [hk, hm, createErrorResponse]
      | ok payload =>
        by_cases hr : extractText payload = []
        · simp [hk, hm, hr, createErrorResponse]
        · cases payload with
          | none => exact absurd rfl hr
          | some t =>
            simp only [hk, hm, if_neg hr]
            exact ⟨fun _ => ⟨t, rfl, rfl, hr⟩, fun hcontra => absurd rfl hcontra⟩

/-- `callOllama` response invariant. -/
theorem callOllama_inv (sys user : Str) (model : Option Str) (baseUrl : Str) (net : NetReply) :
    ((callOllama sys user model baseUrl net).1.error = none →
      ∃ t, net = Except.ok (some t) ∧
        (callOllama sys user model baseUrl net).1.response = jsTrim t ∧ jsTrim t ≠ []) ∧
    ((callOllama sys user model baseUrl net).1.error ≠ none →
      (callOllama sys user model baseUrl net).1.response = []) := by
  unfold callOllama
  cases hm : validateModel model (toChars "Ollama") with
  | some e => simp [hm, createErrorResponse]
  | none =>
    cases net with
    | error err =>
      by_cases hc : err.code = some (toChars "ECONNREFUSED") <;>
        simp [hm, hc, createErrorResponse]
    | ok payload =>
      by_cases hr : extractText payload = []
      · simp [hm, hr, createErrorResponse]
      · cases payload with
        | none => exact absurd rfl hr
        | some t =>
          simp only [hm, if_neg hr]
          exact ⟨fun _ => ⟨t, rfl, rfl, hr⟩, fun hcontra => absurd rfl hcontra⟩

/-- `callCustomServer` response invariant. -/
theorem callCustomServer_inv (sys user : Str) (token : Option Str) (net : NetReply) :
    ((callCustomServer sys user token net).1.error = none →
      ∃ t, net = Except.ok (some t) ∧
        (callCustomServer sys user token net).1.response = jsTrim t ∧ jsTrim t ≠ []) ∧
    ((callCustomServer sys user token net).1.error ≠ none →
      (callCustomServer sys user token net).1.response = []) := by
  unfold callCustomServer
  by_cases ht : token = none ∨ token = some []
  · simp [ht, createErrorResponse]
  · cases net with
    | error err =>
      by_cases h1 : err.status = some 401 <;> by_cases h2 : err.status = some 403 <;>
        simp [ht, h1, h2, createErrorResponse]
    | ok payload =>
      by_cases hr : extractText payload = []
      · simp [ht, hr, createErrorResponse]
      · cases payload with
        | none => exact absurd rfl hr
        | some t =>
          simp only [if_neg ht, if_neg hr]
          exact ⟨fun _ => ⟨t, rfl, rfl, hr⟩, fun hcontra => absurd rfl hcontra⟩

/-- `callOpenAI` response invariant. -/
theorem callOpenAI_inv (sys user : Str) (model apiKey : Option Str) (net : NetReply) :
    ((callOpenAI sys user model apiKey net).1.error = none →
      ∃ t, net = Except.ok (some t) ∧
        (callOpenAI sys user model apiKey net).1.response = jsTrim t ∧ jsTrim t ≠ []) ∧
    ((callOpenAI sys user model apiKey net).1.error ≠ none →
      (callOpenAI sys user model apiKey net).1.response = []) := by
  unfold callOpenAI
  cases hk : validateApiKey apiKey (toChars "OpenAI") with
  | some e => simp [hk, createErrorResponse]
  | none =>
    cases hm : validateModel model (toChars "OpenAI") with
    | some e => simp [hk, hm, createErrorResponse]
    | none =>
      cases net with
      | error err =>
        by_cases h1 : err.status = some 401 <;> by_cases h2 : err.status = some 429 <;>
          simp [hk, hm, h1, h2, createErrorResponse]
      | ok payload =>
        by_cases hr : extractText payload = []
        · simp [hk, hm, hr, createErrorResponse]
        · cases payload with
          | none => exact absurd rfl hr
          | some t =>
            simp only [hk, hm, if_neg hr]
            exact ⟨fun _ => ⟨t, rfl, rfl, hr⟩, fun hcontra => absurd rfl hcontra⟩

/-- `callClaude` response invariant. -/
theorem callClaude_inv (sys user : Str) (model apiKey : Option Str) (net : NetReply) :
    ((callClaude sys user model apiKey net).1.error = none →
      ∃ t, net = Except.ok (some t) ∧
        (callClaude sys user model apiKey net).1.response = jsTrim t ∧ jsTrim t ≠ []) ∧
    ((callClaude sys user model apiKey net).1.error ≠ none →
      (callClaude sys user model apiKey net).1.response = []) := by
  unfold callClaude
  cases hk : validateApiKey apiKey (toChars "Claude") with
  | some e => simp [hk, createErrorResponse]
  | none =>
    cases hm : validateModel model (toChars "Claude") with
    | some e => simp [hk, hm, createErrorResponse]
    | none =>
      cases net with
      | error err =>
        by_cases h1 : err.status = some 401 <;> by_cases h2 : err.status = some 429 <;>
          simp [hk, hm, h1, h2, createErrorResponse]
      | ok payload =>
        by_cases hr : extractText payload = []
        · simp [hk, hm, hr, createErrorResponse]
        · cases payload with
          | none => exact absurd rfl hr
          | some t =>
            simp only [hk, hm, if_neg hr]
            exact ⟨fun _ => ⟨t, rfl, rfl, hr⟩, fun hcontra => absurd rfl hcontra⟩

/-- `callOpenRouter` response invariant. -/
theorem callOpenRouter_inv (sys user : Str) (model apiKey : Option Str) (net : NetReply) :
    ((callOpenRouter sys user model apiKey net).1.error = none →
      ∃ t, net = Except.ok (some t) ∧
        (callOpenRouter sys user model apiKey net).1.response = jsTrim t ∧ jsTrim t ≠ []) ∧
    ((callOpenRouter sys user model apiKey net).1.error ≠ none →
      (callOpenRouter sys user model apiKey net).1.response = []) := by
  unfold callOpenRouter
  cases hk : validateApiKey apiKey (toChars "OpenRouter") with
  | some e => simp [hk, createErrorResponse]
  | none =>
    cases net with
    | error err =>
      by_cases h1 : err.status = some 401 <;> by_cases h2 : err.status = some 429 <;>
        simp [hk, h1, h2, createErrorResponse]
    | ok payload =>
      by_cases hr : extractText payload = []
      · simp [hk, hr, createErrorResponse]
      · cases payload with
        | none => exact absurd rfl hr
        | some t =>
          simp only [hk, if_neg hr]
          exact ⟨fun _ => ⟨t, rfl, rfl, hr⟩, fun hcontra => absurd rfl hcontra⟩

/-- `callTogether` response invariant. -/
theorem callTogether_inv (sys user : Str) (model apiKey : Option Str) (net : NetReply) :
    ((callTogether sys user model apiKey net).1.error = none →
      ∃ t, net = Except.ok (some t) ∧
        (callTogether sys user model apiKey net).1.response = jsTrim t ∧ jsTrim t ≠ []) ∧
    ((callTogether sys user model apiKey net).1.error ≠ none →
      (callTogether sys user model apiKey net).1.response = []) := by
  unfold callTogether
  cases hk : validateApiKey apiKey (toChars "Together") with
  | some e => simp [hk, createErrorResponse]
  | none =>
    cases hm : validateModel model (toChars "Together") with
    | some e => simp [hk, hm, createErrorResponse]
    | none =>
      cases net with
      | error err =>
        by_cases h1 : err.status = some 401 <;> by_cases h2 : err.status = some 429 <;>
          simp [hk, hm, h1, h2, createErrorResponse]
      | ok payload =>
        by_cases hr : extractText payload = []
        · simp [hk, hm, hr, createErrorResponse]
        · cases payload with
          | none => exact absurd rfl hr
          | some t =>
            simp only [hk, hm, if_neg hr]
            exact ⟨fun _ => ⟨t, rfl, rfl, hr⟩, fun hcontra => absurd rfl hcontra⟩

/-- `callHuggingFace` response invariant. -/
theorem callHuggingFace_inv (sys user : Str) (model apiKey : Option Str) (net : NetReply) :
    ((callHuggingFace sys user model apiKey net).1.error = none →
      ∃ t, net = Except.ok (some t) ∧
        (callHuggingFace sys user model apiKey net).1.response = jsTrim t ∧ jsTrim t ≠ []) ∧
    ((callHuggingFace sys user model apiKey net).1.error ≠ none →
      (callHuggingFace sys user model apiKey net).1.response = []) := by
  unfold callHuggingFace
  cases hk : validateApiKey apiKey (toChars "HuggingFace") with
  | some e => simp [hk, createErrorResponse]
  | none =>
    cases net with
    | error err =>
      by_cases h1 : err.status = some 401 <;> by_cases h2 : err.status = some 503 <;>
        simp [hk, h1, h2, createErrorResponse]
    | ok payload =>
      by_cases hr : extractText payload = []
      · simp [hk, hr, createErrorResponse]
      · cases payload with
        | none => exact absurd rfl hr
        | some t =>
          simp only [hk, if_neg hr]
          exact ⟨fun _ => ⟨t, rfl, rfl, hr⟩, fun hcontra => absurd rfl hcontra⟩

/-- `callReplicate` response invariant. -/
theorem callReplicate_inv (sys user : Str) (modelVersion apiKey : Option Str) (net : NetReply) :
    ((callReplicate sys user modelVersion apiKey net).1.error = none →
      ∃ t, net = Except.ok (some t) ∧
        (callReplicate sys user modelVersion apiKey net).1.response = jsTrim t ∧ jsTrim t ≠ []) ∧
    ((callReplicate sys user modelVersion apiKey net).1.error ≠ none →
      (callReplicate sys user modelVersion apiKey net).1.response = []) := by
  unfold callReplicate
  cases hk : validateApiKey apiKey (toChars "Replicate") with
  | some e => simp [hk, createErrorResponse]
  | none =>
    cases hm : validateModel modelVersion (toChars "Replicate") with
    | some e => simp [hk, hm, createErrorResponse]
    | none =>
      by_cases hcolon : ':' ∉ modelVersion.getD []
      · simp [hk, hm, hcolon, createErrorResponse]
      · cases net with
        | error err =>
          by_cases h1 : err.status = some 401 <;> by_cases h2 : err.status = some 404 <;>
            simp [hk, hm, hcolon, h1, h2, createErrorResponse]
        | ok payload =>
          by_cases hr : extractText payload = []
          · simp [hk, hm, hcolon, hr, createErrorResponse]
          · cases payload with
            | none => exact absurd rfl hr
            | some t =>
              simp only [hk, hm, if_neg hcolon, if_neg hr]
              exact ⟨fun _ => ⟨t, rfl, rfl, hr⟩, fun hcontra => absurd rfl hcontra⟩

/-- `callDeepInfra` response invariant. -/
theorem callDeepInfra_inv (sys user : Str) (model apiKey : Option Str) (net : NetReply) :
    ((callDeepInfra sys user model apiKey net).1.error = none →
      ∃ t, net = Except.ok (some t) ∧
        (callDeepInfra sys user model apiKey net).1.response = jsTrim t ∧ jsTrim t ≠ []) ∧
    ((callDeepInfra sys user model apiKey net).1.error ≠ none →
      (callDeepInfra sys user model apiKey net).1.response = []) := by
  unfold callDeepInfra
  cases hk : validateApiKey apiKey (toChars "DeepInfra") with
  | some e => simp [hk, createErrorResponse]
  | none =>
    cases hm : validateModel model (toChars "DeepInfra") with
    | some e => simp [hk, hm, createErrorResponse]
    | none =>
      cases net with
      | error err =>
        by_cases h1 : err.status = some 401 <;> by_cases h2 : err.status = some 429 <;>
          simp [hk, hm, h1, h2, createErrorResponse]
      | ok payload =>
        by_cases hr : extractText payload = []
        · simp [hk, hm, hr, createErrorResponse]
        · cases payload with
          | none => exact absurd rfl hr
          | some t =>
            simp only [hk, hm, if_neg hr]
            exact ⟨fun _ => ⟨t, rfl, rfl, hr⟩, fun hcontra => absurd rfl hcontra⟩

/-- The gateway-level response invariant: every `AskAi` result either is a
failure with empty text, or is a success whose text is the non-empty
trimmed payload of a 2xx provider reply. -/
theorem askAi_inv (sys user : Str) (env : Env) :
    ((AskAi sys user env).1.error = none →
      ∃ t, env.net = Except.ok (some t) ∧
        (AskAi sys user env).1.response = jsTrim t ∧ jsTrim t ≠ []) ∧
    ((AskAi sys user env).1.error ≠ none → (AskAi sys user env).1.response = []) := by
  unfold AskAi
  by_cases hs : jsTrim sys = []
  · simp [hs, createErrorResponse]
  · by_cases hu : jsTrim user = []
    · simp [hs, hu, createErrorResponse]
    · cases hcfg : env.cfg with
      | error e => simp [hs, hu, createErrorResponse]
      | ok config =>
        simp only [if_neg hs, if_neg hu]
        by_cases h1 : providerOrServer config.provider = toChars "groq"
        · rw [if_pos h1]; exact callGroq_inv _ _ _ _ _
        rw [if_neg h1]
        by_cases h2 : providerOrServer config.provider = toChars "ollama"
        · rw [if_pos h2]; exact callOllama_inv _ _ _ _ _
        rw [if_neg h2]
        by_cases h3 : providerOrServer config.provider = toChars "openai"
        · rw [if_pos h3]; exact callOpenAI_inv _ _ _ _ _
        rw [if_neg h3]
        by_cases h4 : providerOrServer config.provider = toChars "claude"
        · rw [if_pos h4]; exact callClaude_inv _ _ _ _ _
        rw [if_neg h4]
        by_cases h5 : providerOrServer config.provider = toChars "openrouterai"
        · rw [if_pos h5]; exact callOpenRouter_inv _ _ _ _ _
        rw [if_neg h5]
        by_cases h6 : providerOrServer config.provider = toChars "togetherai"
        · rw [if_pos h6]; exact callTogether_inv _ _ _ _ _
        rw [if_neg h6]
        by_cases h7 : providerOrServer config.provider = toChars "huggingface"
        · rw [if_pos h7]; exact callHuggingFace_inv _ _ _ _ _
        rw [if_neg h7]
        by_cases h8 : providerOrServer config.provider = toChars "replicate"
        · rw [if_pos h8]; exact callReplicate_inv _ _ _ _ _
        rw [if_neg h8]
        by_cases h9 : providerOrServer config.provider = toChars "deepinfra"
        · rw [if_pos h9]; exact callDeepInfra_inv _ _ _ _ _
        rw [if_neg h9]
        by_cases h10 : providerOrServer config.provider = toChars "server"
        · rw [if_pos h10]; exact callCustomServer_inv _ _ _ _
        rw [if_neg h10]
        exact callCustomServer_inv _ _ _ _

/-!
## Claim C1: behaviour of a chunk with more than one field separator
-/

/-- Claim C1, as stated, is false on the code: `split('|||')` splits on
every occurrence and the destructuring keeps only the first two parts, so
`"cmd ||| does a ||| thing"` parses to content `"does a"`, not
`"does a ||| thing"` — the text after the second separator is discarded. -/
theorem c1_counterexample :
    parseEntries (toChars "cmd ||| does a ||| thing") =
      [(toChars "cmd", toChars "does a")] ∧
    parseEntries (toChars "cmd ||| does a ||| thing") ≠
      [(toChars "cmd", toChars "does a ||| thing")] := by decide

/-- Claim C1 (amended): a chunk in which the field separator appears more
than once is split at every occurrence and only the first two parts are
kept — the label is the trimmed first part and the content the trimmed
second part, independent of the remaining parts, which are discarded. -/
theorem c1_split_keeps_first_two_parts (chunk p0 p1 : Str) (rest : List Str)
    (h : jsSplit vbar3 chunk = p0 :: p1 :: rest)
    (h0 : jsTrim p0 ≠ []) (h1 : jsTrim p1 ≠ []) :
    recordOfChunk chunk = some (jsTrim p0, jsTrim p1) := by
  unfold recordOfChunk chunkParts
  rw [h]
  simp [h0, h1]

/-- Witness for C1's amended theorem on the spec's own example chunk. -/
theorem c1_split_keeps_first_two_parts_witness :
    recordOfChunk (toChars "cmd ||| does a ||| thing") =
      some (jsTrim (toChars "cmd "), jsTrim (toChars " does a ")) :=
  c1_split_keeps_first_two_parts (toChars "cmd ||| does a ||| thing")
    (toChars "cmd ") (toChars " does a ") [toChars " thing"]
    (by decide) (by decide) (by decide)

/-!
## Claim C2: zero surviving records
-/

/-- Claim C2, as stated, is false on the code: no `EmptyStructuredOutput`
error path exists; on whitespace-only input the formatters are total and
return empty strings in both channels. -/
theorem c2_counterexample :
    explainFormatter (toChars "   ") = { rendered := [], raw := [] } ∧
    generateFormatter (toChars ",") = { rendered := [], raw := [] } := by decide

/-- Claim C2 (amended): whenever zero valid records survive filtering —
including empty and whitespace-only input, and a comma split with all parts
empty after trim for the generate kind — the formatters return a
`FormatterOutput` whose display and raw channels are both the empty
string; no error is raised. -/
theorem c2_zero_records_empty_output :
    (∀ s : Str, parseEntries s = [] →
      explainFormatter s = { rendered := [], raw := [] }) ∧
    (∀ s : Str, generateCommands s = [] →
      generateFormatter s = { rendered := [], raw := [] }) := by
  constructor
  · intro s h
    simp [explainFormatter, h, renderedOfEntries, plainOfEntries, joinWith]
  · intro s h
    simp [generateFormatter, h, joinWith]

/-- Witness for C2's amended theorem on empty and all-empty-comma input. -/
theorem c2_zero_records_empty_output_witness :
    explainFormatter (toChars "") = { rendered := [], raw := [] } ∧
    generateFormatter (toChars " , ,") = { rendered := [], raw := [] } :=
  ⟨c2_zero_records_empty_output.1 (toChars "") (by decide),
   c2_zero_records_empty_output.2 (toChars " , ,") (by decide)⟩

/-!
## Claim C3: plain-channel round trip
-/

/-- Claim C3, as stated, is false on the code: `convertFormatter`'s raw
channel keeps only the contents (the labels are dropped, so nothing can
recover them), and `examplesFormatter` joins with `" - "` rather than
`": "`, so the trivial `"label: content"` splitter recovers nothing. -/
theorem c3_counterexample :
    parseEntries (toChars "bash ||| ls") = [(toChars "bash", toChars "ls")] ∧
    trivialSplitter ((convertFormatter (toChars "bash ||| ls")).raw) = [] ∧
    trivialSplitter ((examplesFormatter (toChars "cp ||| copies")).raw) ≠
      parseEntries (toChars "cp ||| copies") := by decide

/-- Claim C3 (amended): the plain channel is `"label: content"` per line
only for the explain, teach and error-explain formatters, and for these the
trivial splitter recovers the record set exactly, provided no label
contains a colon and neither field contains a newline; the convert
formatter's plain channel keeps only the contents and the examples, fix
and improve formatters join fields with `" - "`. -/
theorem c3_plain_roundtrip :
    (∀ entries : List (Str × Str),
      (∀ r ∈ entries, ':' ∉ r.1 ∧ '\n' ∉ r.1 ∧ '\n' ∉ r.2) →
      trivialSplitter (plainOfEntries entries) = entries) ∧
    (∀ s : Str, (explainFormatter s).raw = plainOfEntries (parseEntries s)) ∧
    (∀ s : Str, (teachFormatter s).raw = plainOfEntries (parseEntries s)) ∧
    (∀ s : Str, (errorExplainFormatter s).raw = plainOfEntries (parseEntries s)) := by
  refine ⟨?_, fun s => rfl, fun s => rfl, fun s => rfl⟩
  intro entries
  induction entries with
  | nil => intro h; decide
  | cons r rest ih =>
    intro h
    obtain ⟨hc, hn1, hn2⟩ := h r (List.mem_cons_self r rest)
    have hrest : ∀ x ∈ rest, ':' ∉ x.1 ∧ '\n' ∉ x.1 ∧ '\n' ∉ x.2 :=
      fun x hx => h x (List.mem_cons_of_mem r hx)
    have hnl : '\n' ∉ plainLine r := by
      intro hmem
      rcases List.mem_append.mp hmem with hmem' | hmem'
      · rcases List.mem_append.mp hmem' with hmem'' | hmem''
        · exact hn1 hmem''
        · exact absurd hmem'' (by decide)
      · exact hn2 hmem'
    have hsp : splitAtFirst (toChars ": ") (plainLine r) = some (r.1, r.2) :=
      splitAtFirst_append ':' [' '] r.1 r.2 hc
    cases rest with
    | nil =>
      show trivialSplitter (plainLine r) = [r]
      unfold trivialSplitter
      rw [show (toChars "\n") = ['\n'] from rfl] at *
      rw [jsSplit_no_sep '\n' [] (plainLine r) hnl]
      simp [List.filterMap_cons, hsp]
    | cons r2 rest' =>
      have e1 : plainOfEntries (r :: r2 :: rest') =
          plainLine r ++ toChars "\n" ++ plainOfEntries (r2 :: rest') := rfl
      unfold trivialSplitter
      rw [e1]
      rw [show (toChars "\n") = ['\n'] from rfl] at *
      rw [jsSplit_append_sep '\n' [] (plainLine r) (plainOfEntries (r2 :: rest')) hnl]
      rw [List.filterMap_cons]
      have ihr := ih hrest
      unfold trivialSplitter at ihr
      rw [show (toChars "\n") = ['\n'] from rfl] at ihr
      rw [hsp, ihr]

/-- Witness for C3's amended theorem on a two-record set. -/
theorem c3_plain_roundtrip_witness :
    trivialSplitter (plainOfEntries
        [(toChars "WHAT", toChars "shows files"), (toChars "FLAGS", toChars "-a, -l")]) =
      [(toChars "WHAT", toChars "shows files"), (toChars "FLAGS", toChars "-a, -l")] :=
  c3_plain_roundtrip.1 _ (by decide)

/-!
## Claim C4: the gateway never throws
-/

/-- Claim C4: `AskAi` is a total function into response values; an
exception thrown while reading the configuration (the only throwing step
between validation and dispatch) is caught by the outer handler and
returned as the internal-error failure with no network call, and whenever
the adapter's network invocation throws, the overall result is a failure
value — never a propagated exception (in the embedding, a `Success` is
impossible under a thrown transport error). -/
theorem c4_askAi_never_throws :
    (∀ (sys user : Str) (env : Env) (e : Str), jsTrim sys ≠ [] → jsTrim user ≠ [] →
      env.cfg = Except.error e →
      AskAi sys user env =
        (createErrorResponse (toChars "System") (toChars "Unexpected error: " ++ e) none, 0)) ∧
    (∀ (sys user : Str) (env : Env) (err : NetErr), env.net = Except.error err →
      (AskAi sys user env).1.error ≠ none) := by
  constructor
  · intro sys user env e hs hu hcfg
    unfold AskAi
    rw [if_neg hs, if_neg hu, hcfg]
  · intro sys user env err hnet hnone
    obtain ⟨t, ht, _, _⟩ := (askAi_inv sys user env).1 hnone
    rw [hnet] at ht
    exact Except.noConfusion ht

/-- Witness for C4 on a throwing configuration read and a 401 transport error. -/
theorem c4_askAi_never_throws_witness :
    AskAi (toChars "sys") (toChars "hi") envCfgThrow =
      (createErrorResponse (toChars "System")
        (toChars "Unexpected error: " ++ toChars "boom") none, 0) ∧
    (AskAi (toChars "sys") (toChars "hi") envNet401).1.error ≠ none :=
  ⟨c4_askAi_never_throws.1 _ _ _ _ (by decide) (by decide) rfl,
   c4_askAi_never_throws.2 _ _ _ _ rfl⟩

/-!
## Claim C5: exactly one populated response variant
-/

/-- Claim C5: every `AskAi` result populates exactly one variant — a
success has no error set and carries the non-empty trimmed payload of a
2xx reply, a failure has empty text — and a 2xx reply from which only
empty text is extracted always yields a failure, never an empty-text
success.  (The per-adapter versions of this invariant are
`callGroq_inv` … `callDeepInfra_inv` above, from which this follows.) -/
theorem c5_exactly_one_variant :
    (∀ (sys user : Str) (env : Env),
      ((AskAi sys user env).1.error = none →
        (AskAi sys user env).1.response ≠ [] ∧
        ∃ t, env.net = Except.ok (some t) ∧ (AskAi sys user env).1.response = jsTrim t) ∧
      ((AskAi sys user env).1.error ≠ none → (AskAi sys user env).1.response = [])) ∧
    (∀ (sys user : Str) (env : Env) (payload : Option Str),
      env.net = Except.ok payload → extractText payload = [] →
      (AskAi sys user env).1.error ≠ none) := by
  constructor
  · intro sys user env
    obtain ⟨h1, h2⟩ := askAi_inv sys user env
    refine ⟨fun he => ?_, h2⟩
    obtain ⟨t, ht, hresp, hne⟩ := h1 he
    exact ⟨by rw [hresp]; exact hne, ⟨t, ht, hresp⟩⟩
  · intro sys user env payload hnet hempty hnone
    obtain ⟨t, ht, _, hne⟩ := (askAi_inv sys user env).1 hnone
    rw [hnet] at ht
    injection ht with ht'
    rw [ht'] at hempty
    exact hne hempty

/-- Witness for C5 on a successful call and on a whitespace-only 2xx reply. -/
theorem c5_exactly_one_variant_witness :
    (AskAi (toChars "sys") (toChars "hi") envOk).1.response ≠ [] ∧
    (AskAi (toChars "sys") (toChars "hi") envEmptyReply).1.error ≠ none :=
  ⟨((c5_exactly_one_variant.1 (toChars "sys") (toChars "hi") envOk).1 (by decide)).1,
   c5_exactly_one_variant.2 (toChars "sys") (toChars "hi") envEmptyReply
     (some (toChars "   ")) rfl (by decide)⟩

/-!
## Claim C6: well-formed raw text parses to exactly its records
-/

/-- Claim C6: when every chunk of the record-separator split has exactly
two trimmed parts, both non-empty, the parser returns exactly one record
per chunk, in original order (the i-th record is the pair of trimmed parts
of the i-th chunk), each with a non-empty, already-trimmed label and
content. -/
theorem c6_wellformed_parse (raw : Str)
    (h : ∀ ch ∈ jsSplit dash3 raw, ∃ l c, chunkParts ch = [l, c] ∧ l ≠ [] ∧ c ≠ []) :
    parseEntries raw =
      (jsSplit dash3 raw).map
        (fun ch => ((chunkParts ch).getD 0 [], (chunkParts ch).getD 1 [])) ∧
    (parseEntries raw).length = (jsSplit dash3 raw).length ∧
    ∀ r ∈ parseEntries raw,
      r.1 ≠ [] ∧ r.2 ≠ [] ∧ jsTrim r.1 = r.1 ∧ jsTrim r.2 = r.2 := by
  have hsome : ∀ ch ∈ jsSplit dash3 raw,
      recordOfChunk ch = some ((chunkParts ch).getD 0 [], (chunkParts ch).getD 1 []) := by
    intro ch hch
    obtain ⟨l, c, hparts, hl, hc⟩ := h ch hch
    unfold recordOfChunk
    rw [hparts]
    simp [hl, hc]
  have hmap : parseEntries raw =
      (jsSplit dash3 raw).map
        (fun ch => ((chunkParts ch).getD 0 [], (chunkParts ch).getD 1 [])) :=
    filterMap_eq_map_of_eq_some _ _ _ hsome
  refine ⟨hmap, by rw [hmap, List.length_map], ?_⟩
  intro r hr
  rw [hmap] at hr
  obtain ⟨ch, hch, hrch⟩ := List.mem_map.mp hr
  obtain ⟨l, c, hparts, hl, hc⟩ := h ch hch
  have hr' : r = (l, c) := by rw [← hrch, hparts]; rfl
  subst hr'
  have hlmem : l ∈ chunkParts ch := by rw [hparts]; exact List.mem_cons_self _ _
  have hcmem : c ∈ chunkParts ch := by
    rw [hparts]; exact List.mem_cons_of_mem _ (List.mem_cons_self _ _)
  unfold chunkParts at hlmem hcmem
  obtain ⟨x, _, hx⟩ := List.mem_map.mp hlmem
  obtain ⟨y, _, hy⟩ := List.mem_map.mp hcmem
  exact ⟨hl, hc, by rw [← hx, jsTrim_idem], by rw [← hy, jsTrim_idem]⟩

/-- Witness for C6 on the spec's example raw text. -/
theorem c6_wellformed_parse_witness :
    parseEntries (toChars "WHAT ||| shows files\n---\nFLAGS ||| -a, -l") =
      [(toChars "WHAT", toChars "shows files"), (toChars "FLAGS", toChars "-a, -l")] :=
  ((c6_wellformed_parse (toChars "WHAT ||| shows files\n---\nFLAGS ||| -a, -l")
    (by
      intro ch hch
      rw [show jsSplit dash3 (toChars "WHAT ||| shows files\n---\nFLAGS ||| -a, -l") =
          [toChars "WHAT ||| shows files\n", toChars "\nFLAGS ||| -a, -l"] from by decide] at hch
      rcases List.mem_cons.mp hch with rfl | hch'
      · exact ⟨toChars "WHAT", toChars "shows files", by decide, by decide, by decide⟩
      · rcases List.mem_cons.mp hch' with rfl | hch''
        · exact ⟨toChars "FLAGS", toChars "-a, -l", by decide, by decide, by decide⟩
        · cases hch'')).1).trans (by decide)

/-!
## Claim C7: missing API key fails before any network call
-/

/-- Claim C7: each of the eight key-requiring adapters, given a missing,
empty or whitespace-only API key, returns the missing-credential failure
with a network-request count of zero — the credential check runs before
the network call, for every possible transport behaviour. -/
theorem c7_missing_key_no_network :
    ∀ (sys user : Str) (model key : Option Str) (net : NetReply),
      jsTrim (key.getD []) = [] →
      callGroq sys user model key net =
        (createErrorResponse (toChars "Groq")
          (toChars "Groq" ++ toChars " API key is missing. Set it using: senpai config --set apiKey <your-key>") none, 0) ∧
      callOpenAI sys user model key net =
        (createErrorResponse (toChars "OpenAI")
          (toChars "OpenAI" ++ toChars " API key is missing. Set it using: senpai config --set apiKey <your-key>") none, 0) ∧
      callClaude sys user model key net =
        (createErrorResponse (toChars "Claude")
          (toChars "Claude" ++ toChars " API key is missing. Set it using: senpai config --set apiKey <your-key>") none, 0) ∧
      callOpenRouter sys user model key net =
        (createErrorResponse (toChars "OpenRouter")
          (toChars "OpenRouter" ++ toChars " API key is missing. Set it using: senpai config --set apiKey <your-key>") none, 0) ∧
      callTogether sys user model key net =
        (createErrorResponse (toChars "Together")
          (toChars "Together" ++ toChars " API key is missing. Set it using: senpai config --set apiKey <your-key>") none, 0) ∧
      callHuggingFace sys user model key net =
        (createErrorResponse (toChars "HuggingFace")
          (toChars "HuggingFace" ++ toChars " API key is missing. Set it using: senpai config --set apiKey <your-key>") none, 0) ∧
      callReplicate sys user model key net =
        (createErrorResponse (toChars "Replicate")
          (toChars "Replicate" ++ toChars " API key is missing. Set it using: senpai config --set apiKey <your-key>") none, 0) ∧
      callDeepInfra sys user model key net =
        (createErrorResponse (toChars "DeepInfra")
          (toChars "DeepInfra" ++ toChars " API key is missing. Set it using: senpai config --set apiKey <your-key>") none, 0) := by
  intro sys user model key net hk
  have hval : ∀ p : Str, validateApiKey key p =
      some (p ++ toChars " API key is missing. Set it using: senpai config --set apiKey <your-key>") := by
    intro p
    simp [validateApiKey, hk]
  refine ⟨?_, ?_, ?_, ?_, ?_, ?_, ?_, ?_⟩ <;>
    simp [callGroq, callOpenAI, callClaude, callOpenRouter, callTogether,
      callHuggingFace, callReplicate, callDeepInfra, hval]

/-- Witness for C7: the Groq adapter with an absent key and a live
transport still reports zero network requests. -/
theorem c7_missing_key_no_network_witness :
    callGroq (toChars "s") (toChars "u") (some (toChars "m")) none
        (Except.ok (some (toChars "x"))) =
      (createErrorResponse (toChars "Groq")
        (toChars "Groq" ++ toChars " API key is missing. Set it using: senpai config --set apiKey <your-key>") none, 0) :=
  (c7_missing_key_no_network (toChars "s") (toChars "u") (some (toChars "m")) none
    (Except.ok (some (toChars "x"))) (by decide)).1

/-!
## Claim C8: prompt validation precedes configuration read and network I/O
-/

/-- Claim C8: with an empty or whitespace-only system or user prompt,
`AskAi` returns the corresponding invalid-request failure with zero
network requests, and the result is the same for every environment — the
configuration is never consulted and no network request is issued. -/
theorem c8_prompt_validation_first :
    (∀ (sys user : Str) (env : Env), jsTrim sys = [] →
      AskAi sys user env =
        (createErrorResponse (toChars "System")
          (toChars "System prompt is required and cannot be empty") none, 0)) ∧
    (∀ (sys user : Str) (env : Env), jsTrim sys ≠ [] → jsTrim user = [] →
      AskAi sys user env =
        (createErrorResponse (toChars "System")
          (toChars "User prompt is required and cannot be empty") none, 0)) := by
  constructor
  · intro sys user env h
    simp [AskAi, h]
  · intro sys user env hs hu
    simp [AskAi, hs, hu]

/-- Witness for C8 on whitespace-only prompts (with a throwing
configuration in the environment, which is never reached). -/
theorem c8_prompt_validation_first_witness :
    AskAi (toChars "   ") (toChars "hi") envCfgThrow =
      (createErrorResponse (toChars "System")
        (toChars "System prompt is required and cannot be empty") none, 0) ∧
    AskAi (toChars "sys") (toChars " \t ") envCfgThrow =
      (createErrorResponse (toChars "System")
        (toChars "User prompt is required and cannot be empty") none, 0) :=
  ⟨c8_prompt_validation_first.1 _ _ _ (by decide),
   c8_prompt_validation_first.2 _ _ _ (by decide) (by decide)⟩

/-!
## Claim C9: display-channel padding invariant
-/

/-- Claim C9: in the display channel every record's line is its label
padded to exactly `maxLabelLen + 2` visible characters followed by the
content, where the maximum ranges over all labels of the response; the
plain channel concatenates without padding. -/
theorem c9_padding_invariant (entries : List (Str × Str)) (r : Str × Str) (h : r ∈ entries) :
    displayLine entries r = padEnd r.1 (maxLabelLen entries + 2) ++ r.2 ∧
    (padEnd r.1 (maxLabelLen entries + 2)).length = maxLabelLen entries + 2 ∧
    plainLine r = r.1 ++ toChars ": " ++ r.2 := by
  refine ⟨rfl, ?_, rfl⟩
  have hmem : r.1.length ∈ entries.map (fun e => e.1.length) :=
    List.mem_map.mpr ⟨r, h, rfl⟩
  have hle : r.1.length ≤ maxLabelLen entries := le_foldr_max _ _ hmem
  simp only [padEnd, List.length_append, List.length_replicate]
  omega

/-- Witness for C9 on a record set with labels of different lengths. -/
theorem c9_padding_invariant_witness :
    displayLine sampleEntries (toChars "WHAT", toChars "lists files") =
      padEnd (toChars "WHAT") (maxLabelLen sampleEntries + 2) ++ toChars "lists files" ∧
    (padEnd (toChars "WHAT") (maxLabelLen sampleEntries + 2)).length =
      maxLabelLen sampleEntries + 2 ∧
    plainLine (toChars "WHAT", toChars "lists files") =
      toChars "WHAT" ++ toChars ": " ++ toChars "lists files" :=
  c9_padding_invariant sampleEntries (toChars "WHAT", toChars "lists files") (by decide)

/-!
## Claim C10: the record separator acts anywhere in the raw text
-/

/-- Claim C10: any occurrence of `'---'` splits the raw text, wherever it
sits — after any dash-free piece `a` (in particular mid-line and inside
would-be content), the parser treats `a` as one chunk and continues after
the separator, so content containing `'---'` is cut into separate chunks
rather than kept whole. -/
theorem c10_separator_anywhere (a b : Str) (h : '-' ∉ a) :
    parseEntries (a ++ dash3 ++ b) = (recordOfChunk a).toList ++ parseEntries b := by
  unfold parseEntries
  rw [show dash3 = '-' :: '-' :: '-' :: [] from rfl]
  rw [jsSplit_append_sep '-' ['-', '-'] a b h]
  rw [List.filterMap_cons]
  cases hrc : recordOfChunk a <;> simp [hrc]

/-- Witness for C10: a field separator occurrence in the middle of a line
still splits, cutting the would-be content in two. -/
theorem c10_separator_anywhere_witness :
    parseEntries (toChars "KEY ||| part one " ++ dash3 ++ toChars " tail\nNEXT ||| x") =
      (recordOfChunk (toChars "KEY ||| part one ")).toList ++
        parseEntries (toChars " tail\nNEXT ||| x") :=
  c10_separator_anywhere (toChars "KEY ||| part one ") (toChars " tail\nNEXT ||| x")
    (by decide)
